import Mathlib

/-!
The package smartid: session lifecycle and result/error classification

A shallow embedding of `authenticate.go` and `errors.go` (package `smartid`).

* Go strings are Lean `String`s; the constants keep their Go names.
* A Go `error` is `Option ErrorValue`: `none` is the `nil` interface value.
* A Go pointer result (`*Person`, `*Session`) is an `Option`: `none` is `nil`.
* The collaborators (`requests.CreateAuthenticationSession`,
  `requests.FetchAuthenticationSession`, `utils.Extract`) are parameters of the
  operations, bundled in `Collaborators`; what they answer during one call is
  a function of the arguments they are given.
* Every operation also returns the list of collaborator calls it made, in
  order, so that "is not invoked" is a statement about the returned value.
-/

namespace smartid

/-! ## Constants (authenticate.go, lines 13-26) -/

def Running : String := "RUNNING"
def Complete : String := "COMPLETE"

def OK : String := "OK"
def USER_REFUSED : String := "USER_REFUSED"
def USER_REFUSED_DISPLAYTEXTANDPIN : String := "USER_REFUSED_DISPLAYTEXTANDPIN"
def USER_REFUSED_VC_CHOICE : String := "USER_REFUSED_VC_CHOICE"
def USER_REFUSED_CONFIRMATIONMESSAGE : String := "USER_REFUSED_CONFIRMATIONMESSAGE"
def USER_REFUSED_CONFIRMATIONMESSAGE_WITH_VC_CHOICE : String :=
  "USER_REFUSED_CONFIRMATIONMESSAGE_WITH_VC_CHOICE"
def USER_REFUSED_CERT_CHOICE : String := "USER_REFUSED_CERT_CHOICE"
def WRONG_VC : String := "WRONG_VC"
def TIMEOUT : String := "TIMEOUT"

/-! ## Error values -/

/-- Package-level error variables, each one allocation made once by
`errors.New`. The first five are the public ones of `errors.go`; the last five
are the ones of the package `internal/errors` that `authenticate.go` names. -/
inductive ErrVar where
  | smartid_ErrAuthenticationIsRunning
  | smartid_ErrSmartIdNoSuitableAccount
  | smartid_ErrSmartIdMaintenance
  | smartid_ErrUserRefused
  | smartid_ErrTimeout
  | errors_ErrAuthenticationIsRunning
  | errors_ErrSmartIdNoSuitableAccount
  | errors_ErrSmartIdMaintenance
  | errors_ErrUnsupportedState
  | errors_ErrUnsupportedResult
deriving DecidableEq, Repr

/-- A non-nil Go error value.

* `errorVar v`: the value held by the package-level variable `v`;
* `errorString s`: any other value made by `errors.New(s)`, which is also what
  `fmt.Errorf` returns for a format without `%w`;
* `wrapError msg err`: a value whose `Unwrap() error` gives `err`
  (`fmt.Errorf` with one `%w`);
* `joinError errs`: a value whose `Unwrap() []error` gives `errs`
  (`errors.Join`, `fmt.Errorf` with several `%w`);
* `Error Code`: a `*Error` of `authenticate.go`, lines 28-36. -/
inductive ErrorValue where
  | errorVar (v : ErrVar)
  | errorString (s : String)
  | wrapError (msg : String) (err : ErrorValue)
  | joinError (errs : List ErrorValue)
  | Error (Code : String)

/-- The Go interface type `error`; `none` is `nil`. -/
abbrev error := Option ErrorValue

mutual
/-- Go's `==` on two non-nil error values. It is exact whenever one side is a
package-level variable, which is the only way this program uses it; two
run-time values of the same shape and content are identified. -/
def ErrorValue.same : ErrorValue → ErrorValue → Bool
  | .errorVar v, .errorVar w => decide (v = w)
  | .errorString s, .errorString t => decide (s = t)
  | .wrapError m e, .wrapError n f => decide (m = n) && ErrorValue.same e f
  | .joinError es, .joinError fs => ErrorValue.sameList es fs
  | .Error c, .Error d => decide (c = d)
  | _, _ => false
/-- Pointwise `ErrorValue.same` on two lists of the same length. -/
def ErrorValue.sameList : List ErrorValue → List ErrorValue → Bool
  | [], [] => true
  | e :: es, f :: fs => ErrorValue.same e f && ErrorValue.sameList es fs
  | _, _ => false
end

mutual
/-- The loop `is` of Go's package `errors`: compare the value with the
target, then descend through `Unwrap`. -/
def ErrorValue.is (target : ErrorValue) : ErrorValue → Bool
  | .wrapError m e => ErrorValue.same (.wrapError m e) target || ErrorValue.is target e
  | .joinError es => ErrorValue.same (.joinError es) target || ErrorValue.isAny target es
  | e => ErrorValue.same e target
/-- The `for _, err := range x.Unwrap()` loop inside `is`. -/
def ErrorValue.isAny (target : ErrorValue) : List ErrorValue → Bool
  | [] => false
  | e :: es => ErrorValue.is target e || ErrorValue.isAny target es
end

/-- Go's `errors.Is(err, target)`: when either side is nil the answer is
`err == target`. -/
def errorsIs (err target : error) : Bool :=
  match err, target with
  | some e, some t => ErrorValue.is t e
  | none, none => true
  | _, _ => false

/-- The call `fmt.Errorf("%s", a)` with a string argument: the format has one
`%s` verb and no `%w`, so the result is `errors.New` of the argument's text. -/
def fmtErrorf (a : String) : error := some (ErrorValue.errorString a)

/-! ### errors.go -/

def ErrAuthenticationIsRunning : error :=
  some (ErrorValue.errorVar ErrVar.smartid_ErrAuthenticationIsRunning)
def ErrSmartIdNoSuitableAccount : error :=
  some (ErrorValue.errorVar ErrVar.smartid_ErrSmartIdNoSuitableAccount)
def ErrSmartIdMaintenance : error :=
  some (ErrorValue.errorVar ErrVar.smartid_ErrSmartIdMaintenance)
def ErrUserRefused : error := some (ErrorValue.errorVar ErrVar.smartid_ErrUserRefused)
def ErrTimeout : error := some (ErrorValue.errorVar ErrVar.smartid_ErrTimeout)

/-! ### internal/errors -/

/-- Modelled from the spec: the package `internal/errors` is not among the
sources. Its five variables used by `authenticate.go` are sentinel values
compared by identity, distinct from one another and from the public ones. -/
def errors.ErrAuthenticationIsRunning : error :=
  some (ErrorValue.errorVar ErrVar.errors_ErrAuthenticationIsRunning)
/-- Modelled from the spec: the internal "no suitable account" sentinel. -/
def errors.ErrSmartIdNoSuitableAccount : error :=
  some (ErrorValue.errorVar ErrVar.errors_ErrSmartIdNoSuitableAccount)
/-- Modelled from the spec: the internal "provider under maintenance" sentinel. -/
def errors.ErrSmartIdMaintenance : error :=
  some (ErrorValue.errorVar ErrVar.errors_ErrSmartIdMaintenance)
/-- Modelled from the spec: the internal `UnsupportedState` sentinel. -/
def errors.ErrUnsupportedState : error :=
  some (ErrorValue.errorVar ErrVar.errors_ErrUnsupportedState)
/-- Modelled from the spec: the internal `UnsupportedResult` sentinel. -/
def errors.ErrUnsupportedResult : error :=
  some (ErrorValue.errorVar ErrVar.errors_ErrUnsupportedResult)

/-! ## Data model -/

/-- The struct `config.Config` (internal/config/config.go); a `time.Duration`
is a count of nanoseconds. -/
structure Config where
  RelyingPartyName : String
  RelyingPartyUUID : String
  CertificateLevel : String
  HashType : String
  InteractionType : String
  Text : String
  URL : String
  Timeout : Int
deriving DecidableEq, Repr

/-- Go's `context.Context`: this layer only hands it on to the transport. -/
structure Context where
  token : Nat
deriving DecidableEq, Repr

/-- The receiver of `CreateSession` and `FetchSession`. -/
structure client where
  config : Config
deriving DecidableEq, Repr

/-- Modelled from the spec: the declaration of `Session` is not among the
sources; it is a handle holding the session identifier, and the conversion
`(*Session)(session)` keeps the representation. -/
structure Session where
  Id : String
deriving DecidableEq, Repr

/-- The struct `Person` built by `FetchSession` (lines 95-100). -/
structure Person where
  IdentityNumber : String
  PersonalCode : String
  FirstName : String
  LastName : String
deriving DecidableEq, Repr

/-- Modelled from the spec: the record returned by `utils.Extract`, of which
`FetchSession` reads these four fields. -/
structure Identity where
  IdentityNumber : String
  PersonalCode : String
  FirstName : String
  LastName : String
deriving DecidableEq, Repr

/-- Modelled from the spec: the field `Result` of the transport's response. -/
structure Result where
  EndResult : String
deriving DecidableEq, Repr

/-- Modelled from the spec: the field `Cert` of the transport's response; the
certificate value is opaque to this layer. -/
structure Cert where
  Value : List UInt8
deriving DecidableEq, Repr

/-- Modelled from the spec: the response of `requests.FetchAuthenticationSession`,
of which `FetchSession` reads `State`, `Result.EndResult` and `Cert.Value`. -/
structure Response where
  State : String
  Result : Result
  Cert : Cert
deriving DecidableEq, Repr

/-- One call to a collaborator, with its arguments. -/
inductive Call where
  | CreateAuthenticationSession (ctx : Context) (cfg : Config) (nationalIdentityNumber : String)
  | FetchAuthenticationSession (ctx : Context) (cfg : Config) (sessionId : String)
  | Extract (value : List UInt8)
deriving DecidableEq, Repr

/-- What the three collaborators answer during one call of an operation. Each
returns a Go pair (value, error); the value is read only when the error is
nil, and is then taken to be a valid (non-nil) record. -/
structure Collaborators where
  CreateAuthenticationSession : Context → Config → String → Option Session × error
  FetchAuthenticationSession : Context → Config → String → Response × error
  Extract : List UInt8 → Identity × error

/-- The pair returned by an operation (a pointer and an error), together with
the collaborator calls made, in order. -/
structure Returned (α : Type) where
  value : Option α
  err : error
  calls : List Call

/-! ## Status mapper (authenticate.go, lines 39-65) -/

def handleMappedError (err : error) : error :=
  if errorsIs err errors.ErrAuthenticationIsRunning then
    ErrAuthenticationIsRunning
  else if errorsIs err errors.ErrSmartIdNoSuitableAccount then
    ErrSmartIdNoSuitableAccount
  else if errorsIs err errors.ErrSmartIdMaintenance then
    ErrSmartIdMaintenance
  else
    err

def handleMappedResponseError (err : String) : error :=
  if err = USER_REFUSED ∨ err = USER_REFUSED_DISPLAYTEXTANDPIN ∨ err = USER_REFUSED_VC_CHOICE ∨
      err = USER_REFUSED_CONFIRMATIONMESSAGE ∨
      err = USER_REFUSED_CONFIRMATIONMESSAGE_WITH_VC_CHOICE ∨ err = USER_REFUSED_CERT_CHOICE then
    ErrUserRefused
  else if err = TIMEOUT then
    ErrTimeout
  else
    fmtErrorf err

/-! ## Session lifecycle controller (authenticate.go, lines 67-116) -/

def CreateSession (w : Collaborators) (c : client) (ctx : Context)
    (nationalIdentityNumber : String) : Returned Session :=
  let r := w.CreateAuthenticationSession ctx c.config nationalIdentityNumber
  let session := r.1
  let err := r.2
  let calls := [Call.CreateAuthenticationSession ctx c.config nationalIdentityNumber]
  if err.isSome then
    { value := none, err := handleMappedError err, calls := calls }
  else
    { value := session, err := none, calls := calls }

def FetchSession (w : Collaborators) (c : client) (ctx : Context)
    (sessionId : String) : Returned Person :=
  let r := w.FetchAuthenticationSession ctx c.config sessionId
  let response := r.1
  let err := r.2
  let calls := [Call.FetchAuthenticationSession ctx c.config sessionId]
  if err.isSome then
    { value := none, err := handleMappedError err, calls := calls }
  else if response.State = Running then
    { value := none, err := ErrAuthenticationIsRunning, calls := calls }
  else if response.State = Complete then
    if response.Result.EndResult = OK then
      let x := w.Extract response.Cert.Value
      let person := x.1
      let err := x.2
      let calls := calls ++ [Call.Extract response.Cert.Value]
      if err.isSome then
        { value := none, err := err, calls := calls }
      else
        { value := some { IdentityNumber := person.IdentityNumber
                          PersonalCode := person.PersonalCode
                          FirstName := person.FirstName
                          LastName := person.LastName }
          err := none
          calls := calls }
    else if response.Result.EndResult = USER_REFUSED ∨
        response.Result.EndResult = USER_REFUSED_DISPLAYTEXTANDPIN ∨
        response.Result.EndResult = USER_REFUSED_VC_CHOICE ∨
        response.Result.EndResult = USER_REFUSED_CONFIRMATIONMESSAGE ∨
        response.Result.EndResult = USER_REFUSED_CONFIRMATIONMESSAGE_WITH_VC_CHOICE ∨
        response.Result.EndResult = USER_REFUSED_CERT_CHOICE ∨
        response.Result.EndResult = WRONG_VC ∨
        response.Result.EndResult = TIMEOUT then
      { value := none, err := handleMappedResponseError response.Result.EndResult, calls := calls }
    else
      { value := none, err := errors.ErrUnsupportedResult, calls := calls }
  else
    { value := none, err := errors.ErrUnsupportedState, calls := calls }

/-! ## Concrete collaborators used to evaluate the operations -/

/-- A transport whose fetch answers `(response, err)` to every call and whose
create answers a nil session with a nil error, with an extractor answering
`(identity, xerr)`. -/
def answering (response : Response) (err : error) (identity : Identity) (xerr : error) :
    Collaborators :=
  { CreateAuthenticationSession := fun _ _ _ => (none, none)
    FetchAuthenticationSession := fun _ _ _ => (response, err)
    Extract := fun _ => (identity, xerr) }

def sampleConfig : Config :=
  { RelyingPartyName := "DEMO", RelyingPartyUUID := "00000000-0000-0000-0000-000000000000",
    CertificateLevel := "QUALIFIED", HashType := "SHA512", InteractionType := "displayTextAndPIN",
    Text := "Log in", URL := "https://sid.demo.sk.ee/smart-id-rp/v2", Timeout := 30000000000 }

def sampleClient : client := { config := sampleConfig }

def sampleContext : Context := { token := 0 }

def sampleIdentity : Identity :=
  { IdentityNumber := "PNOEE-30303039914", PersonalCode := "30303039914",
    FirstName := "QUALIFIED OK1", LastName := "TESTNUMBER" }

def completeWith (endResult : String) : Response :=
  { State := Complete, Result := { EndResult := endResult }, Cert := { Value := [48, 130] } }

/-- Collaborators whose create-session call answers `(session, err)`. -/
def creating (session : Option Session) (err : error) : Collaborators :=
  { CreateAuthenticationSession := fun _ _ _ => (session, err)
    FetchAuthenticationSession := fun _ _ _ => (completeWith OK, none)
    Extract := fun _ => (sampleIdentity, none) }

/-- A response with the given state, carrying an endResult and a certificate
all the same. -/
def inState (state : String) : Response :=
  { State := state, Result := { EndResult := OK }, Cert := { Value := [48, 130] } }

/-- The value of `context.Canceled`, an `errors.New` value of the standard library. -/
def contextCanceled : ErrorValue := ErrorValue.errorString "context canceled"

/-- An error wrapping two of the internal conditions at once, as
`errors.Join(errors.ErrAuthenticationIsRunning, errors.ErrSmartIdNoSuitableAccount)`
builds it. -/
def runningAndNoAccount : ErrorValue :=
  ErrorValue.joinError [ErrorValue.errorVar ErrVar.errors_ErrAuthenticationIsRunning,
    ErrorValue.errorVar ErrVar.errors_ErrSmartIdNoSuitableAccount]

/-! ## Error texts -/

/-- The method `Error` of `*Error` (authenticate.go, lines 34-36):
`fmt.Sprintf("authentication failed: %s", e.Code)`. -/
def Error.Error (Code : String) : String := "authentication failed: " ++ Code

/-- The text given to `errors.New` for a package-level variable (errors.go,
lines 5-11); `none` for the variables of `internal/errors`, whose texts are not
among the sources. -/
def ErrVar.text : ErrVar → Option String
  | .smartid_ErrAuthenticationIsRunning => some "authentication is still running"
  | .smartid_ErrSmartIdNoSuitableAccount => some "no suitable account of requested type found"
  | .smartid_ErrSmartIdMaintenance => some "system is under maintenance, retry again later"
  | .smartid_ErrUserRefused => some "user refused"
  | .smartid_ErrTimeout => some "user didn't respond in time"
  | _ => none

mutual
/-- What the method `Error()` of an error value returns, when the sources
tell: the text of an `errors.New` value, the message of a wrapping value, the
texts of the joined values separated by newlines, `Error.Error` for a `*Error`. -/
def ErrorValue.text : ErrorValue → Option String
  | .errorVar v => v.text
  | .errorString s => some s
  | .wrapError msg _ => some msg
  | .joinError errs => ErrorValue.joinText errs
  | .Error Code => some (Error.Error Code)
/-- The texts of the values of a list, separated by newlines. -/
def ErrorValue.joinText : List ErrorValue → Option String
  | [] => some ""
  | e :: es =>
    match ErrorValue.text e, ErrorValue.joinText es with
    | some a, some b => if es.isEmpty then some a else some (a ++ "\n" ++ b)
    | _, _ => none
end

/-- The text of a Go `error`, `none` for nil or when the sources do not tell. -/
def errorText (err : error) : Option String :=
  match err with
  | some e => ErrorValue.text e
  | none => none

/-! ## FetchSession over any end-result mapper, and the receiver after a call -/

/-- The body of FetchSession (authenticate.go, lines 78-116) with the function
called at line 109 taken as the parameter `mapper`; FetchSession is this
function at `handleMappedResponseError`. -/
def FetchSessionWith (mapper : String → error) (w : Collaborators) (c : client) (ctx : Context)
    (sessionId : String) : Returned Person :=
  let r := w.FetchAuthenticationSession ctx c.config sessionId
  let response := r.1
  let err := r.2
  let calls := [Call.FetchAuthenticationSession ctx c.config sessionId]
  if err.isSome then
    { value := none, err := handleMappedError err, calls := calls }
  else if response.State = Running then
    { value := none, err := ErrAuthenticationIsRunning, calls := calls }
  else if response.State = Complete then
    if response.Result.EndResult = OK then
      let x := w.Extract response.Cert.Value
      let person := x.1
      let err := x.2
      let calls := calls ++ [Call.Extract response.Cert.Value]
      if err.isSome then
        { value := none, err := err, calls := calls }
      else
        { value := some { IdentityNumber := person.IdentityNumber
                          PersonalCode := person.PersonalCode
                          FirstName := person.FirstName
                          LastName := person.LastName }
          err := none
          calls := calls }
    else if response.Result.EndResult = USER_REFUSED ∨
        response.Result.EndResult = USER_REFUSED_DISPLAYTEXTANDPIN ∨
        response.Result.EndResult = USER_REFUSED_VC_CHOICE ∨
        response.Result.EndResult = USER_REFUSED_CONFIRMATIONMESSAGE ∨
        response.Result.EndResult = USER_REFUSED_CONFIRMATIONMESSAGE_WITH_VC_CHOICE ∨
        response.Result.EndResult = USER_REFUSED_CERT_CHOICE ∨
        response.Result.EndResult = WRONG_VC ∨
        response.Result.EndResult = TIMEOUT then
      { value := none, err := mapper response.Result.EndResult, calls := calls }
    else
      { value := none, err := errors.ErrUnsupportedResult, calls := calls }
  else
    { value := none, err := errors.ErrUnsupportedState, calls := calls }

/-- A mapper that answers ErrTimeout for the code OK and is
handleMappedResponseError on every other code. -/
def mapperChangedAtOK (code : String) : error :=
  if code = OK then ErrTimeout else handleMappedResponseError code

/-- One call of FetchSession as a step on its receiver. The method has a
pointer receiver, reads `c.config` (line 79) and assigns to no field of `c` nor
to a package-level variable, so the receiver after the call is the receiver
before it. -/
def FetchSession.step (w : Collaborators) (ctx : Context) (sessionId : String) (c : client) :
    Returned Person × client :=
  (FetchSession w c ctx sessionId, c)

/-! ## Facts shared by the proofs -/

theorem Complete_ne_Running : ¬ Complete = Running := by decide

theorem handleMappedError_some_ne_none (e : ErrorValue) : handleMappedError (some e) ≠ none := by
  unfold handleMappedError
  split_ifs <;>
    simp [ErrAuthenticationIsRunning, ErrSmartIdNoSuitableAccount, ErrSmartIdMaintenance]

theorem handleMappedResponseError_ne_none (code : String) :
    handleMappedResponseError code ≠ none := by
  unfold handleMappedResponseError
  split_ifs <;> simp [ErrUserRefused, ErrTimeout, fmtErrorf]

/-! ## FetchSession on a completed session with a known failure code -/

/-- Claim C1, as the code has it: when the transport succeeds with state
COMPLETE, FetchSession returns no Person, calls only the transport, and returns
ErrUserRefused for each of the six USER_REFUSED codes, ErrTimeout for TIMEOUT,
and for WRONG_VC the value of `fmt.Errorf("%s", "WRONG_VC")`, an error made at
run time whose text is the code. -/
theorem C1_FetchSession_known_failure_codes (w : Collaborators) (c : client) (ctx : Context)
    (sessionId : String) (response : Response)
    (ht : w.FetchAuthenticationSession ctx c.config sessionId = (response, none))
    (hs : response.State = Complete) :
    (response.Result.EndResult ∈ [USER_REFUSED, USER_REFUSED_DISPLAYTEXTANDPIN,
        USER_REFUSED_VC_CHOICE, USER_REFUSED_CONFIRMATIONMESSAGE,
        USER_REFUSED_CONFIRMATIONMESSAGE_WITH_VC_CHOICE, USER_REFUSED_CERT_CHOICE] →
      FetchSession w c ctx sessionId =
        { value := none, err := ErrUserRefused,
          calls := [Call.FetchAuthenticationSession ctx c.config sessionId] }) ∧
    (response.Result.EndResult = TIMEOUT →
      FetchSession w c ctx sessionId =
        { value := none, err := ErrTimeout,
          calls := [Call.FetchAuthenticationSession ctx c.config sessionId] }) ∧
    (response.Result.EndResult = WRONG_VC →
      FetchSession w c ctx sessionId =
        { value := none, err := some (ErrorValue.errorString "WRONG_VC"),
          calls := [Call.FetchAuthenticationSession ctx c.config sessionId] }) := by
  refine ⟨?_, ?_, ?_⟩
  · intro h
    simp only [List.mem_cons, List.mem_singleton, List.not_mem_nil, or_false] at h
    unfold FetchSession
    rcases h with h | h | h | h | h | h <;>
      simp [ht, hs, h, handleMappedResponseError, Running, Complete, OK, USER_REFUSED,
        USER_REFUSED_DISPLAYTEXTANDPIN, USER_REFUSED_VC_CHOICE, USER_REFUSED_CONFIRMATIONMESSAGE,
        USER_REFUSED_CONFIRMATIONMESSAGE_WITH_VC_CHOICE, USER_REFUSED_CERT_CHOICE]
  · intro h
    unfold FetchSession
    simp [ht, hs, h, handleMappedResponseError, Running, Complete, OK, USER_REFUSED,
      USER_REFUSED_DISPLAYTEXTANDPIN, USER_REFUSED_VC_CHOICE, USER_REFUSED_CONFIRMATIONMESSAGE,
      USER_REFUSED_CONFIRMATIONMESSAGE_WITH_VC_CHOICE, USER_REFUSED_CERT_CHOICE, TIMEOUT]
  · intro h
    unfold FetchSession
    simp [ht, hs, h, handleMappedResponseError, fmtErrorf, Running, Complete, OK, USER_REFUSED,
      USER_REFUSED_DISPLAYTEXTANDPIN, USER_REFUSED_VC_CHOICE, USER_REFUSED_CONFIRMATIONMESSAGE,
      USER_REFUSED_CONFIRMATIONMESSAGE_WITH_VC_CHOICE, USER_REFUSED_CERT_CHOICE, TIMEOUT,
      WRONG_VC]

/-- Claim C1, evaluated on a transport answering COMPLETE with
USER_REFUSED_CERT_CHOICE, with TIMEOUT and with WRONG_VC. -/
theorem C1_FetchSession_known_failure_codes_witness :
    FetchSession (answering (completeWith USER_REFUSED_CERT_CHOICE) none sampleIdentity none)
        sampleClient sampleContext "s1" =
      { value := none, err := ErrUserRefused,
        calls := [Call.FetchAuthenticationSession sampleContext sampleConfig "s1"] } ∧
    FetchSession (answering (completeWith TIMEOUT) none sampleIdentity none)
        sampleClient sampleContext "s1" =
      { value := none, err := ErrTimeout,
        calls := [Call.FetchAuthenticationSession sampleContext sampleConfig "s1"] } ∧
    FetchSession (answering (completeWith WRONG_VC) none sampleIdentity none)
        sampleClient sampleContext "s1" =
      { value := none, err := some (ErrorValue.errorString "WRONG_VC"),
        calls := [Call.FetchAuthenticationSession sampleContext sampleConfig "s1"] } :=
  ⟨(C1_FetchSession_known_failure_codes
      (answering (completeWith USER_REFUSED_CERT_CHOICE) none sampleIdentity none)
      sampleClient sampleContext "s1" (completeWith USER_REFUSED_CERT_CHOICE) rfl rfl).1
      (by decide),
    (C1_FetchSession_known_failure_codes
      (answering (completeWith TIMEOUT) none sampleIdentity none)
      sampleClient sampleContext "s1" (completeWith TIMEOUT) rfl rfl).2.1 rfl,
    (C1_FetchSession_known_failure_codes
      (answering (completeWith WRONG_VC) none sampleIdentity none)
      sampleClient sampleContext "s1" (completeWith WRONG_VC) rfl rfl).2.2 rfl⟩

/-- Claim C1 fails at WRONG_VC: the transport succeeds with state COMPLETE and
endResult WRONG_VC, and the error FetchSession returns is the run-time error
with text "WRONG_VC", which is neither ErrUserRefused nor ErrTimeout. -/
theorem C1_WRONG_VC_is_not_ErrUserRefused :
    (answering (completeWith WRONG_VC) none sampleIdentity none).FetchAuthenticationSession
        sampleContext sampleClient.config "s1" = (completeWith WRONG_VC, none) ∧
    (completeWith WRONG_VC).State = Complete ∧
    (completeWith WRONG_VC).Result.EndResult = WRONG_VC ∧
    (FetchSession (answering (completeWith WRONG_VC) none sampleIdentity none)
        sampleClient sampleContext "s1").err = some (ErrorValue.errorString "WRONG_VC") ∧
    (FetchSession (answering (completeWith WRONG_VC) none sampleIdentity none)
        sampleClient sampleContext "s1").err ≠ ErrUserRefused ∧
    (FetchSession (answering (completeWith WRONG_VC) none sampleIdentity none)
        sampleClient sampleContext "s1").err ≠ ErrTimeout := by
  refine ⟨rfl, rfl, rfl, rfl, ?_, ?_⟩
  · have h : (FetchSession (answering (completeWith WRONG_VC) none sampleIdentity none)
        sampleClient sampleContext "s1").err = some (ErrorValue.errorString "WRONG_VC") := rfl
    rw [h]; simp [ErrUserRefused]
  · have h : (FetchSession (answering (completeWith WRONG_VC) none sampleIdentity none)
        sampleClient sampleContext "s1").err = some (ErrorValue.errorString "WRONG_VC") := rfl
    rw [h]; simp [ErrTimeout]

/-! ## FetchSession returns either a Person or an error -/

/-- Claim C2: FetchSession returns a Person with a nil error exactly when the
transport call succeeded, the state is COMPLETE, the endResult is OK and the
identity extractor succeeded on the certificate; in every other case it returns
a nil Person with a non-nil error. So it never returns both or neither, and no
endResult other than OK counts as success. -/
theorem C2_FetchSession_person_xor_error (w : Collaborators) (c : client) (ctx : Context)
    (sessionId : String) :
    (((w.FetchAuthenticationSession ctx c.config sessionId).2 = none ∧
        (w.FetchAuthenticationSession ctx c.config sessionId).1.State = Complete ∧
        (w.FetchAuthenticationSession ctx c.config sessionId).1.Result.EndResult = OK ∧
        (w.Extract (w.FetchAuthenticationSession ctx c.config sessionId).1.Cert.Value).2 = none) ∧
      (FetchSession w c ctx sessionId).value.isSome = true ∧
      (FetchSession w c ctx sessionId).err = none) ∨
    (¬ ((w.FetchAuthenticationSession ctx c.config sessionId).2 = none ∧
        (w.FetchAuthenticationSession ctx c.config sessionId).1.State = Complete ∧
        (w.FetchAuthenticationSession ctx c.config sessionId).1.Result.EndResult = OK ∧
        (w.Extract (w.FetchAuthenticationSession ctx c.config sessionId).1.Cert.Value).2 = none) ∧
      (FetchSession w c ctx sessionId).value = none ∧
      (FetchSession w c ctx sessionId).err ≠ none) := by
  unfold FetchSession
  generalize w.FetchAuthenticationSession ctx c.config sessionId = t
  obtain ⟨response, err⟩ := t
  cases err with
  | some e =>
    right
    simp [handleMappedError_some_ne_none]
  | none =>
    by_cases hr : response.State = Running
    · right
      have hne : ¬ Running = Complete := by decide
      simp [hr, hne, ErrAuthenticationIsRunning]
    · by_cases hc : response.State = Complete
      · by_cases hok : response.Result.EndResult = OK
        · generalize hx : w.Extract response.Cert.Value = x
          obtain ⟨identity, xerr⟩ := x
          cases xerr with
          | some x => right; simp [hc, hok, hx, Complete_ne_Running]
          | none => left; simp [hc, hok, hx, Complete_ne_Running]
        · right
          simp only [Option.isSome_none, Bool.false_eq_true, if_false, hc, hok, if_true,
            Complete_ne_Running]
          split_ifs <;>
            simp [handleMappedResponseError_ne_none, errors.ErrUnsupportedResult]
      · right
        simp [hr, hc, errors.ErrUnsupportedState]

/-! ## FetchSession on success -/

/-- Claim C3: when the transport succeeds with state COMPLETE and endResult OK
and the identity extractor succeeds on the certificate value, FetchSession
returns a nil error and a Person whose four fields are those of the record the
extractor returned, after calling the transport and then the extractor. -/
theorem C3_FetchSession_copies_identity (w : Collaborators) (c : client) (ctx : Context)
    (sessionId : String) (response : Response) (identity : Identity)
    (ht : w.FetchAuthenticationSession ctx c.config sessionId = (response, none))
    (hs : response.State = Complete) (hok : response.Result.EndResult = OK)
    (hx : w.Extract response.Cert.Value = (identity, none)) :
    FetchSession w c ctx sessionId =
      { value := some { IdentityNumber := identity.IdentityNumber
                        PersonalCode := identity.PersonalCode
                        FirstName := identity.FirstName
                        LastName := identity.LastName }
        err := none
        calls := [Call.FetchAuthenticationSession ctx c.config sessionId,
          Call.Extract response.Cert.Value] } := by
  unfold FetchSession
  simp [ht, hs, hok, hx, Running, Complete]

/-- Claim C3, evaluated on a transport answering COMPLETE with OK and an
extractor answering the sample identity. -/
theorem C3_FetchSession_copies_identity_witness :
    FetchSession (answering (completeWith OK) none sampleIdentity none)
        sampleClient sampleContext "s1" =
      { value := some { IdentityNumber := "PNOEE-30303039914"
                        PersonalCode := "30303039914"
                        FirstName := "QUALIFIED OK1"
                        LastName := "TESTNUMBER" }
        err := none
        calls := [Call.FetchAuthenticationSession sampleContext sampleConfig "s1",
          Call.Extract [48, 130]] } :=
  C3_FetchSession_copies_identity (answering (completeWith OK) none sampleIdentity none)
    sampleClient sampleContext "s1" (completeWith OK) sampleIdentity rfl rfl rfl rfl

/-! ## FetchSession on the other states and results -/

/-- Claim C4: when the transport succeeds with state RUNNING, FetchSession
returns no Person and ErrAuthenticationIsRunning, whatever the endResult and
the certificate in the response and whatever the extractor would answer; the
only collaborator called is the transport. -/
theorem C4_FetchSession_running (w : Collaborators) (c : client) (ctx : Context)
    (sessionId : String) (response : Response)
    (ht : w.FetchAuthenticationSession ctx c.config sessionId = (response, none))
    (hs : response.State = Running) :
    FetchSession w c ctx sessionId =
      { value := none, err := ErrAuthenticationIsRunning,
        calls := [Call.FetchAuthenticationSession ctx c.config sessionId] } := by
  unfold FetchSession
  simp [ht, hs]

/-- Claim C4, evaluated on a transport answering RUNNING (with an endResult OK
and a certificate in the response, and an extractor that would succeed). -/
theorem C4_FetchSession_running_witness :
    FetchSession (answering (inState Running) none sampleIdentity none)
        sampleClient sampleContext "s1" =
      { value := none, err := ErrAuthenticationIsRunning,
        calls := [Call.FetchAuthenticationSession sampleContext sampleConfig "s1"] } :=
  C4_FetchSession_running (answering (inState Running) none sampleIdentity none)
    sampleClient sampleContext "s1" (inState Running) rfl rfl

/-- Claim C5: when the transport succeeds with state COMPLETE and an endResult
that is neither OK nor one of the eight known failure codes, FetchSession
returns no Person and the UnsupportedResult error, and the only collaborator
called is the transport. -/
theorem C5_FetchSession_unsupported_result (w : Collaborators) (c : client) (ctx : Context)
    (sessionId : String) (response : Response)
    (ht : w.FetchAuthenticationSession ctx c.config sessionId = (response, none))
    (hs : response.State = Complete)
    (hr : response.Result.EndResult ∉ [OK, USER_REFUSED, USER_REFUSED_DISPLAYTEXTANDPIN,
      USER_REFUSED_VC_CHOICE, USER_REFUSED_CONFIRMATIONMESSAGE,
      USER_REFUSED_CONFIRMATIONMESSAGE_WITH_VC_CHOICE, USER_REFUSED_CERT_CHOICE, WRONG_VC,
      TIMEOUT]) :
    FetchSession w c ctx sessionId =
      { value := none, err := errors.ErrUnsupportedResult,
        calls := [Call.FetchAuthenticationSession ctx c.config sessionId] } := by
  simp only [List.mem_cons, List.mem_singleton, List.not_mem_nil, or_false, not_or] at hr
  obtain ⟨h0, h1, h2, h3, h4, h5, h6, h7, h8⟩ := hr
  unfold FetchSession
  simp [ht, hs, h0, h1, h2, h3, h4, h5, h6, h7, h8, Complete_ne_Running]

/-- Claim C5, evaluated on the endResult "FOO_BAR" and on the empty endResult. -/
theorem C5_FetchSession_unsupported_result_witness :
    FetchSession (answering (completeWith "FOO_BAR") none sampleIdentity none)
        sampleClient sampleContext "s1" =
      { value := none, err := errors.ErrUnsupportedResult,
        calls := [Call.FetchAuthenticationSession sampleContext sampleConfig "s1"] } ∧
    FetchSession (answering (completeWith "") none sampleIdentity none)
        sampleClient sampleContext "s1" =
      { value := none, err := errors.ErrUnsupportedResult,
        calls := [Call.FetchAuthenticationSession sampleContext sampleConfig "s1"] } :=
  ⟨C5_FetchSession_unsupported_result (answering (completeWith "FOO_BAR") none sampleIdentity none)
      sampleClient sampleContext "s1" (completeWith "FOO_BAR") rfl rfl (by decide),
    C5_FetchSession_unsupported_result (answering (completeWith "") none sampleIdentity none)
      sampleClient sampleContext "s1" (completeWith "") rfl rfl (by decide)⟩

/-- Claim C6: when the transport succeeds with a state that is neither
"RUNNING" nor "COMPLETE", FetchSession returns no Person and the
UnsupportedState error, whatever the endResult and the certificate are; the
only collaborator called is the transport. -/
theorem C6_FetchSession_unsupported_state (w : Collaborators) (c : client) (ctx : Context)
    (sessionId : String) (response : Response)
    (ht : w.FetchAuthenticationSession ctx c.config sessionId = (response, none))
    (hr : response.State ≠ Running) (hc : response.State ≠ Complete) :
    FetchSession w c ctx sessionId =
      { value := none, err := errors.ErrUnsupportedState,
        calls := [Call.FetchAuthenticationSession ctx c.config sessionId] } := by
  unfold FetchSession
  simp [ht, hr, hc]

/-- Claim C6, evaluated on the states "PENDING", "running" and the empty
state, each with endResult OK and a certificate in the response. -/
theorem C6_FetchSession_unsupported_state_witness :
    FetchSession (answering (inState "PENDING") none sampleIdentity none)
        sampleClient sampleContext "s1" =
      { value := none, err := errors.ErrUnsupportedState,
        calls := [Call.FetchAuthenticationSession sampleContext sampleConfig "s1"] } ∧
    FetchSession (answering (inState "running") none sampleIdentity none)
        sampleClient sampleContext "s1" =
      { value := none, err := errors.ErrUnsupportedState,
        calls := [Call.FetchAuthenticationSession sampleContext sampleConfig "s1"] } ∧
    FetchSession (answering (inState "") none sampleIdentity none)
        sampleClient sampleContext "s1" =
      { value := none, err := errors.ErrUnsupportedState,
        calls := [Call.FetchAuthenticationSession sampleContext sampleConfig "s1"] } :=
  ⟨C6_FetchSession_unsupported_state (answering (inState "PENDING") none sampleIdentity none)
      sampleClient sampleContext "s1" (inState "PENDING") rfl (by decide) (by decide),
    C6_FetchSession_unsupported_state (answering (inState "running") none sampleIdentity none)
      sampleClient sampleContext "s1" (inState "running") rfl (by decide) (by decide),
    C6_FetchSession_unsupported_state (answering (inState "") none sampleIdentity none)
      sampleClient sampleContext "s1" (inState "") rfl (by decide) (by decide)⟩

/-! ## The transport-error mapper -/

/-- Claim C7, as the code has it: handleMappedError tests the three internal
conditions in the order running, no suitable account, maintenance and returns
the public error of the first one the input wraps: ErrAuthenticationIsRunning
when it wraps the running condition; ErrSmartIdNoSuitableAccount when it wraps
the no-suitable-account condition and not the running one;
ErrSmartIdMaintenance when it wraps the maintenance condition and neither of
the other two; and the input itself when it wraps none of the three. -/
theorem C7_handleMappedError_first_match (err : error) :
    (errorsIs err errors.ErrAuthenticationIsRunning = true →
      handleMappedError err = ErrAuthenticationIsRunning) ∧
    (errorsIs err errors.ErrAuthenticationIsRunning = false →
      errorsIs err errors.ErrSmartIdNoSuitableAccount = true →
      handleMappedError err = ErrSmartIdNoSuitableAccount) ∧
    (errorsIs err errors.ErrAuthenticationIsRunning = false →
      errorsIs err errors.ErrSmartIdNoSuitableAccount = false →
      errorsIs err errors.ErrSmartIdMaintenance = true →
      handleMappedError err = ErrSmartIdMaintenance) ∧
    (errorsIs err errors.ErrAuthenticationIsRunning = false →
      errorsIs err errors.ErrSmartIdNoSuitableAccount = false →
      errorsIs err errors.ErrSmartIdMaintenance = false →
      handleMappedError err = err) := by
  unfold handleMappedError
  refine ⟨?_, ?_, ?_, ?_⟩
  · intro h1; simp [h1]
  · intro h1 h2; simp [h1, h2]
  · intro h1 h2 h3; simp [h1, h2, h3]
  · intro h1 h2 h3; simp [h1, h2, h3]

/-- Claim C7, evaluated: an error wrapping the internal running condition two
levels deep maps to ErrAuthenticationIsRunning, one wrapping the internal
maintenance condition maps to ErrSmartIdMaintenance, and a cancellation error
is returned as it is. -/
theorem C7_handleMappedError_first_match_witness :
    handleMappedError (some (ErrorValue.wrapError "fetch" (ErrorValue.wrapError "post"
        (ErrorValue.errorVar ErrVar.errors_ErrAuthenticationIsRunning)))) =
      ErrAuthenticationIsRunning ∧
    handleMappedError (some (ErrorValue.wrapError "fetch"
        (ErrorValue.errorVar ErrVar.errors_ErrSmartIdMaintenance))) = ErrSmartIdMaintenance ∧
    handleMappedError (some contextCanceled) = some contextCanceled :=
  ⟨(C7_handleMappedError_first_match _).1 rfl,
    (C7_handleMappedError_first_match _).2.2.1 rfl rfl rfl,
    (C7_handleMappedError_first_match _).2.2.2 rfl rfl rfl⟩

/-- Claim C7 fails on an error that wraps two conditions: the joined error
wraps the internal no-suitable-account condition, yet handleMappedError returns
ErrAuthenticationIsRunning for it, not ErrSmartIdNoSuitableAccount. -/
theorem C7_wraps_no_account_yet_running :
    errorsIs (some runningAndNoAccount) errors.ErrSmartIdNoSuitableAccount = true ∧
    handleMappedError (some runningAndNoAccount) = ErrAuthenticationIsRunning ∧
    handleMappedError (some runningAndNoAccount) ≠ ErrSmartIdNoSuitableAccount := by
  have h : handleMappedError (some runningAndNoAccount) = ErrAuthenticationIsRunning := rfl
  refine ⟨rfl, h, ?_⟩
  rw [h]
  simp [ErrAuthenticationIsRunning, ErrSmartIdNoSuitableAccount]

/-! ## CreateSession -/

/-- Claim C8: when the transport's create-session call fails with an error
wrapping the internal running condition, CreateSession returns a nil Session
and ErrAuthenticationIsRunning; when it fails with an error matching none of
the three internal conditions, CreateSession returns a nil Session and that
same error; when it succeeds, CreateSession returns the transport's session
handle and a nil error. The only collaborator called is the transport. -/
theorem C8_CreateSession (w : Collaborators) (c : client) (ctx : Context)
    (nationalIdentityNumber : String) (session : Option Session) :
    (∀ e : ErrorValue,
      w.CreateAuthenticationSession ctx c.config nationalIdentityNumber = (session, some e) →
      errorsIs (some e) errors.ErrAuthenticationIsRunning = true →
      CreateSession w c ctx nationalIdentityNumber =
        { value := none, err := ErrAuthenticationIsRunning,
          calls := [Call.CreateAuthenticationSession ctx c.config nationalIdentityNumber] }) ∧
    (∀ e : ErrorValue,
      w.CreateAuthenticationSession ctx c.config nationalIdentityNumber = (session, some e) →
      errorsIs (some e) errors.ErrAuthenticationIsRunning = false →
      errorsIs (some e) errors.ErrSmartIdNoSuitableAccount = false →
      errorsIs (some e) errors.ErrSmartIdMaintenance = false →
      CreateSession w c ctx nationalIdentityNumber =
        { value := none, err := some e,
          calls := [Call.CreateAuthenticationSession ctx c.config nationalIdentityNumber] }) ∧
    (w.CreateAuthenticationSession ctx c.config nationalIdentityNumber = (session, none) →
      CreateSession w c ctx nationalIdentityNumber =
        { value := session, err := none,
          calls := [Call.CreateAuthenticationSession ctx c.config nationalIdentityNumber] }) := by
  refine ⟨?_, ?_, ?_⟩
  · intro e ht h1
    unfold CreateSession
    simp [ht, handleMappedError, h1]
  · intro e ht h1 h2 h3
    unfold CreateSession
    simp [ht, handleMappedError, h1, h2, h3]
  · intro ht
    unfold CreateSession
    simp [ht]

/-- Claim C8, evaluated: a create-session call failing with a wrapped internal
running condition, one failing with a cancellation error, and one succeeding
with the session "abc". -/
theorem C8_CreateSession_witness :
    CreateSession (creating none (some (ErrorValue.wrapError "create"
        (ErrorValue.errorVar ErrVar.errors_ErrAuthenticationIsRunning))))
        sampleClient sampleContext "PNOEE-30303039914" =
      { value := none, err := ErrAuthenticationIsRunning,
        calls := [Call.CreateAuthenticationSession sampleContext sampleConfig
          "PNOEE-30303039914"] } ∧
    CreateSession (creating none (some contextCanceled))
        sampleClient sampleContext "PNOEE-30303039914" =
      { value := none, err := some contextCanceled,
        calls := [Call.CreateAuthenticationSession sampleContext sampleConfig
          "PNOEE-30303039914"] } ∧
    CreateSession (creating (some { Id := "abc" }) none)
        sampleClient sampleContext "PNOEE-30303039914" =
      { value := some { Id := "abc" }, err := none,
        calls := [Call.CreateAuthenticationSession sampleContext sampleConfig
          "PNOEE-30303039914"] } :=
  ⟨(C8_CreateSession (creating none (some (ErrorValue.wrapError "create"
        (ErrorValue.errorVar ErrVar.errors_ErrAuthenticationIsRunning))))
      sampleClient sampleContext "PNOEE-30303039914" none).1 _ rfl rfl,
    (C8_CreateSession (creating none (some contextCanceled))
      sampleClient sampleContext "PNOEE-30303039914" none).2.1 _ rfl rfl rfl rfl,
    (C8_CreateSession (creating (some { Id := "abc" }) none)
      sampleClient sampleContext "PNOEE-30303039914" (some { Id := "abc" })).2.2 rfl⟩

/-! ## FetchSession when a collaborator fails -/

/-- Claim C9: when the transport's fetch-session call fails with error e,
FetchSession returns a nil Person and handleMappedError of e, whatever response
value came with it, and calls no collaborator but the transport; an error that
matches none of the three internal conditions is therefore returned as it is. -/
theorem C9_FetchSession_transport_error (w : Collaborators) (c : client) (ctx : Context)
    (sessionId : String) (response : Response) (e : ErrorValue)
    (ht : w.FetchAuthenticationSession ctx c.config sessionId = (response, some e)) :
    FetchSession w c ctx sessionId =
      { value := none, err := handleMappedError (some e),
        calls := [Call.FetchAuthenticationSession ctx c.config sessionId] } ∧
    (errorsIs (some e) errors.ErrAuthenticationIsRunning = false →
      errorsIs (some e) errors.ErrSmartIdNoSuitableAccount = false →
      errorsIs (some e) errors.ErrSmartIdMaintenance = false →
      FetchSession w c ctx sessionId =
        { value := none, err := some e,
          calls := [Call.FetchAuthenticationSession ctx c.config sessionId] }) := by
  refine ⟨?_, ?_⟩
  · unfold FetchSession
    simp [ht]
  · intro h1 h2 h3
    unfold FetchSession
    simp [ht, handleMappedError, h1, h2, h3]

/-- Claim C9, evaluated: the transport fails with a cancellation error while
handing back a response that says COMPLETE and OK; FetchSession returns the
cancellation error and no Person, and does not call the extractor. -/
theorem C9_FetchSession_transport_error_witness :
    FetchSession (answering (completeWith OK) (some contextCanceled) sampleIdentity none)
        sampleClient sampleContext "s1" =
      { value := none, err := some contextCanceled,
        calls := [Call.FetchAuthenticationSession sampleContext sampleConfig "s1"] } :=
  (C9_FetchSession_transport_error
    (answering (completeWith OK) (some contextCanceled) sampleIdentity none)
    sampleClient sampleContext "s1" (completeWith OK) contextCanceled rfl).2 rfl rfl rfl

/-- Claim C10: when the transport succeeds with state COMPLETE and endResult OK
and the identity extractor fails with error x, FetchSession returns a nil
Person and the error x itself, after calling the transport and the extractor. -/
theorem C10_FetchSession_extract_error (w : Collaborators) (c : client) (ctx : Context)
    (sessionId : String) (response : Response) (identity : Identity) (x : ErrorValue)
    (ht : w.FetchAuthenticationSession ctx c.config sessionId = (response, none))
    (hs : response.State = Complete) (hok : response.Result.EndResult = OK)
    (hx : w.Extract response.Cert.Value = (identity, some x)) :
    FetchSession w c ctx sessionId =
      { value := none, err := some x,
        calls := [Call.FetchAuthenticationSession ctx c.config sessionId,
          Call.Extract response.Cert.Value] } := by
  unfold FetchSession
  simp [ht, hs, hok, hx, Complete_ne_Running]

/-- Claim C10, evaluated on an extractor failing with an error that wraps the
internal running condition: FetchSession returns that error itself, where
handleMappedError would have turned it into ErrAuthenticationIsRunning. -/
theorem C10_FetchSession_extract_error_witness :
    FetchSession (answering (completeWith OK) none sampleIdentity
        (some (ErrorValue.wrapError "parse"
          (ErrorValue.errorVar ErrVar.errors_ErrAuthenticationIsRunning))))
        sampleClient sampleContext "s1" =
      { value := none,
        err := some (ErrorValue.wrapError "parse"
          (ErrorValue.errorVar ErrVar.errors_ErrAuthenticationIsRunning)),
        calls := [Call.FetchAuthenticationSession sampleContext sampleConfig "s1",
          Call.Extract [48, 130]] } :=
  C10_FetchSession_extract_error
    (answering (completeWith OK) none sampleIdentity
      (some (ErrorValue.wrapError "parse"
        (ErrorValue.errorVar ErrVar.errors_ErrAuthenticationIsRunning))))
    sampleClient sampleContext "s1" (completeWith OK) sampleIdentity _ rfl rfl rfl rfl

/-! ## The end-result mapper -/

/-- Claim C11: for every code that is not one of the six USER_REFUSED codes,
not WRONG_VC and not TIMEOUT, handleMappedResponseError returns a non-nil
error, made at run time by `fmt.Errorf("%s", code)`, that is neither
ErrUserRefused nor ErrTimeout and whose text is the code itself, whatever
characters the code holds. -/
theorem C11_handleMappedResponseError_generic (code : String)
    (h : code ∉ [USER_REFUSED, USER_REFUSED_DISPLAYTEXTANDPIN, USER_REFUSED_VC_CHOICE,
      USER_REFUSED_CONFIRMATIONMESSAGE, USER_REFUSED_CONFIRMATIONMESSAGE_WITH_VC_CHOICE,
      USER_REFUSED_CERT_CHOICE, WRONG_VC, TIMEOUT]) :
    handleMappedResponseError code = some (ErrorValue.errorString code) ∧
    handleMappedResponseError code ≠ none ∧
    handleMappedResponseError code ≠ ErrUserRefused ∧
    handleMappedResponseError code ≠ ErrTimeout ∧
    errorText (handleMappedResponseError code) = some code := by
  simp only [List.mem_cons, List.mem_singleton, List.not_mem_nil, or_false, not_or] at h
  obtain ⟨h1, h2, h3, h4, h5, h6, _, h8⟩ := h
  have hm : handleMappedResponseError code = some (ErrorValue.errorString code) := by
    unfold handleMappedResponseError
    simp [h1, h2, h3, h4, h5, h6, h8, fmtErrorf]
  rw [hm]
  refine ⟨rfl, ?_, ?_, ?_, ?_⟩
  · simp
  · simp [ErrUserRefused]
  · simp [ErrTimeout]
  · simp [errorText, ErrorValue.text]

/-- Claim C11, evaluated on the code "FOO_BAR" and on a code holding percent
signs. -/
theorem C11_handleMappedResponseError_generic_witness :
    errorText (handleMappedResponseError "FOO_BAR") = some "FOO_BAR" ∧
    errorText (handleMappedResponseError "100%s%d%%") = some "100%s%d%%" :=
  ⟨(C11_handleMappedResponseError_generic "FOO_BAR" (by decide)).2.2.2.2,
    (C11_handleMappedResponseError_generic "100%s%d%%" (by decide)).2.2.2.2⟩

/-- Claim C12, as the code has it: for every code X that is none of the six
USER_REFUSED codes and not TIMEOUT, the error handleMappedResponseError returns
is the value of `fmt.Errorf("%s", X)`, whose text is X alone; it is not an
Error value, whatever its Code. The text "authentication failed: " followed by
X is that of an Error value with Code X, which the mapper does not build. -/
theorem C12_handleMappedResponseError_not_Error (code : String)
    (h : code ∉ [USER_REFUSED, USER_REFUSED_DISPLAYTEXTANDPIN, USER_REFUSED_VC_CHOICE,
      USER_REFUSED_CONFIRMATIONMESSAGE, USER_REFUSED_CONFIRMATIONMESSAGE_WITH_VC_CHOICE,
      USER_REFUSED_CERT_CHOICE, TIMEOUT]) :
    handleMappedResponseError code = fmtErrorf code ∧
    errorText (handleMappedResponseError code) = some code ∧
    (∀ c : String, handleMappedResponseError code ≠ some (ErrorValue.Error c)) ∧
    errorText (some (ErrorValue.Error code)) = some ("authentication failed: " ++ code) := by
  simp only [List.mem_cons, List.mem_singleton, List.not_mem_nil, or_false, not_or] at h
  obtain ⟨h1, h2, h3, h4, h5, h6, h7⟩ := h
  have hm : handleMappedResponseError code = fmtErrorf code := by
    unfold handleMappedResponseError
    simp [h1, h2, h3, h4, h5, h6, h7]
  rw [hm]
  refine ⟨rfl, ?_, ?_, ?_⟩
  · simp [errorText, ErrorValue.text, fmtErrorf]
  · intro c
    simp [fmtErrorf]
  · simp [errorText, ErrorValue.text, Error.Error]

/-- Claim C12, evaluated on WRONG_VC, the one unclassified code FetchSession
hands to the mapper: the text of the returned error is "WRONG_VC". -/
theorem C12_handleMappedResponseError_not_Error_witness :
    handleMappedResponseError WRONG_VC = fmtErrorf WRONG_VC ∧
    errorText (handleMappedResponseError WRONG_VC) = some "WRONG_VC" :=
  ⟨(C12_handleMappedResponseError_not_Error WRONG_VC (by decide)).1,
    (C12_handleMappedResponseError_not_Error WRONG_VC (by decide)).2.1⟩

/-- Claim C12 fails at the unclassified codes WRONG_VC and "FOO_BAR": the
error the mapper returns is not the Error value with that Code, and its text
is the bare code, not "authentication failed: " followed by the code. -/
theorem C12_generic_error_is_bare_code :
    handleMappedResponseError WRONG_VC ≠ some (ErrorValue.Error WRONG_VC) ∧
    errorText (handleMappedResponseError WRONG_VC) = some "WRONG_VC" ∧
    errorText (handleMappedResponseError WRONG_VC) ≠ some "authentication failed: WRONG_VC" ∧
    handleMappedResponseError "FOO_BAR" ≠ some (ErrorValue.Error "FOO_BAR") ∧
    errorText (handleMappedResponseError "FOO_BAR") = some "FOO_BAR" ∧
    errorText (handleMappedResponseError "FOO_BAR") ≠ some "authentication failed: FOO_BAR" := by
  have h1 : handleMappedResponseError WRONG_VC = some (ErrorValue.errorString "WRONG_VC") := rfl
  have h2 : handleMappedResponseError "FOO_BAR" = some (ErrorValue.errorString "FOO_BAR") := rfl
  rw [h1, h2]
  refine ⟨?_, rfl, ?_, ?_, rfl, ?_⟩
  · simp
  · simp [errorText, ErrorValue.text]
  · simp
  · simp [errorText, ErrorValue.text]

/-- Claim C13: handleMappedResponseError returns ErrUserRefused exactly for
the six USER_REFUSED codes and ErrTimeout exactly for TIMEOUT. -/
theorem C13_handleMappedResponseError_table (code : String) :
    (handleMappedResponseError code = ErrUserRefused ↔
      code ∈ [USER_REFUSED, USER_REFUSED_DISPLAYTEXTANDPIN, USER_REFUSED_VC_CHOICE,
        USER_REFUSED_CONFIRMATIONMESSAGE, USER_REFUSED_CONFIRMATIONMESSAGE_WITH_VC_CHOICE,
        USER_REFUSED_CERT_CHOICE]) ∧
    (handleMappedResponseError code = ErrTimeout ↔ code = TIMEOUT) := by
  simp only [List.mem_cons, List.mem_singleton, List.not_mem_nil, or_false]
  unfold handleMappedResponseError
  by_cases h : code = USER_REFUSED ∨ code = USER_REFUSED_DISPLAYTEXTANDPIN ∨
      code = USER_REFUSED_VC_CHOICE ∨ code = USER_REFUSED_CONFIRMATIONMESSAGE ∨
      code = USER_REFUSED_CONFIRMATIONMESSAGE_WITH_VC_CHOICE ∨ code = USER_REFUSED_CERT_CHOICE
  · have ht : code ≠ TIMEOUT := by
      rcases h with h | h | h | h | h | h <;> rw [h] <;> decide
    simp [h, ht, ErrUserRefused, ErrTimeout]
  · by_cases ht : code = TIMEOUT
    · subst ht
      simp [ErrUserRefused, ErrTimeout, TIMEOUT, USER_REFUSED, USER_REFUSED_DISPLAYTEXTANDPIN,
        USER_REFUSED_VC_CHOICE, USER_REFUSED_CONFIRMATIONMESSAGE,
        USER_REFUSED_CONFIRMATIONMESSAGE_WITH_VC_CHOICE, USER_REFUSED_CERT_CHOICE]
    · simp [h, ht, ErrUserRefused, ErrTimeout, fmtErrorf]

/-! ## What FetchSession hands to the end-result mapper -/

/-- Claim C14: FetchSession is its own body with handleMappedResponseError as
the function called at line 109, and for every transport response one of two
things holds. Either the result is the same whatever that function is (it is
not called); or there is a code, one of the eight known failure codes and so
not OK, such that for every function put there the result is no Person and
that function's answer for the code (it is called with that code), and this
code reaches the mapper's default branch (it is none of the six USER_REFUSED
codes and not TIMEOUT) only when it is WRONG_VC. Hence two mappers that agree
on the eight codes give the same result, whatever they answer for OK. -/
theorem C14_FetchSession_mapper_arguments (w : Collaborators) (c : client) (ctx : Context)
    (sessionId : String) :
    FetchSession w c ctx sessionId =
      FetchSessionWith handleMappedResponseError w c ctx sessionId ∧
    ((∀ mapper : String → error,
        FetchSessionWith mapper w c ctx sessionId = FetchSession w c ctx sessionId) ∨
      (∃ code : String,
        code ≠ OK ∧
        code ∈ [USER_REFUSED, USER_REFUSED_DISPLAYTEXTANDPIN, USER_REFUSED_VC_CHOICE,
          USER_REFUSED_CONFIRMATIONMESSAGE, USER_REFUSED_CONFIRMATIONMESSAGE_WITH_VC_CHOICE,
          USER_REFUSED_CERT_CHOICE, WRONG_VC, TIMEOUT] ∧
        (code ∉ [USER_REFUSED, USER_REFUSED_DISPLAYTEXTANDPIN, USER_REFUSED_VC_CHOICE,
            USER_REFUSED_CONFIRMATIONMESSAGE, USER_REFUSED_CONFIRMATIONMESSAGE_WITH_VC_CHOICE,
            USER_REFUSED_CERT_CHOICE] →
          code ≠ TIMEOUT → code = WRONG_VC) ∧
        (∀ mapper : String → error,
          FetchSessionWith mapper w c ctx sessionId =
            { value := none, err := mapper code,
              calls := [Call.FetchAuthenticationSession ctx c.config sessionId] }))) ∧
    (∀ m1 m2 : String → error,
      (∀ code : String,
        code ∈ [USER_REFUSED, USER_REFUSED_DISPLAYTEXTANDPIN, USER_REFUSED_VC_CHOICE,
          USER_REFUSED_CONFIRMATIONMESSAGE, USER_REFUSED_CONFIRMATIONMESSAGE_WITH_VC_CHOICE,
          USER_REFUSED_CERT_CHOICE, WRONG_VC, TIMEOUT] → m1 code = m2 code) →
      FetchSessionWith m1 w c ctx sessionId = FetchSessionWith m2 w c ctx sessionId) := by
  refine ⟨rfl, ?_, ?_⟩
  · unfold FetchSession FetchSessionWith
    generalize w.FetchAuthenticationSession ctx c.config sessionId = t
    obtain ⟨response, err⟩ := t
    simp only [List.mem_cons, List.mem_singleton, List.not_mem_nil, or_false, not_or]
    cases err with
    | some e => left; intro mapper; simp
    | none =>
      by_cases hr : response.State = Running
      · left; intro mapper; simp [hr]
      · by_cases hc : response.State = Complete
        · by_cases hok : response.Result.EndResult = OK
          · left; intro mapper; simp [hc, hok, Complete_ne_Running]
          · by_cases h8 : response.Result.EndResult = USER_REFUSED ∨
                response.Result.EndResult = USER_REFUSED_DISPLAYTEXTANDPIN ∨
                response.Result.EndResult = USER_REFUSED_VC_CHOICE ∨
                response.Result.EndResult = USER_REFUSED_CONFIRMATIONMESSAGE ∨
                response.Result.EndResult = USER_REFUSED_CONFIRMATIONMESSAGE_WITH_VC_CHOICE ∨
                response.Result.EndResult = USER_REFUSED_CERT_CHOICE ∨
                response.Result.EndResult = WRONG_VC ∨
                response.Result.EndResult = TIMEOUT
            · right
              refine ⟨response.Result.EndResult, hok, h8, ?_, ?_⟩
              · rintro ⟨n1, n2, n3, n4, n5, n6⟩ nt
                rcases h8 with h | h | h | h | h | h | h | h
                · exact absurd h n1
                · exact absurd h n2
                · exact absurd h n3
                · exact absurd h n4
                · exact absurd h n5
                · exact absurd h n6
                · exact h
                · exact absurd h nt
              · intro mapper
                simp only [Option.isSome_none, Bool.false_eq_true, if_false, hc, hok, if_true,
                  Complete_ne_Running, h8]
            · left
              intro mapper
              simp only [Option.isSome_none, Bool.false_eq_true, if_false, hc, hok, if_true,
                Complete_ne_Running, h8]
        · left; intro mapper; simp [hr, hc]
  · intro m1 m2 hm
    simp only [List.mem_cons, List.mem_singleton, List.not_mem_nil, or_false] at hm
    unfold FetchSessionWith
    generalize w.FetchAuthenticationSession ctx c.config sessionId = t
    obtain ⟨response, err⟩ := t
    cases err with
    | some e => simp
    | none =>
      by_cases hr : response.State = Running
      · simp [hr]
      · by_cases hc : response.State = Complete
        · by_cases hok : response.Result.EndResult = OK
          · simp [hc, hok, Complete_ne_Running]
          · simp only [Option.isSome_none, Bool.false_eq_true, if_false, hc, hok, if_true,
              Complete_ne_Running]
            split_ifs with h8
            · rw [hm _ h8]
            · rfl
        · simp [hr, hc]

/-- Claim C14, evaluated. On COMPLETE with OK and a failing extractor, and on
COMPLETE with OK and a succeeding one, a mapper that answers differently for OK
changes nothing; on COMPLETE with WRONG_VC the error returned is the mapper's
answer for WRONG_VC. -/
theorem C14_FetchSession_mapper_arguments_witness :
    FetchSessionWith mapperChangedAtOK
        (answering (completeWith OK) none sampleIdentity (some contextCanceled))
        sampleClient sampleContext "s1" =
      FetchSessionWith handleMappedResponseError
        (answering (completeWith OK) none sampleIdentity (some contextCanceled))
        sampleClient sampleContext "s1" ∧
    mapperChangedAtOK OK ≠ handleMappedResponseError OK ∧
    (FetchSession (answering (completeWith OK) none sampleIdentity (some contextCanceled))
        sampleClient sampleContext "s1").err = some contextCanceled ∧
    (FetchSessionWith (fun _ => ErrTimeout)
        (answering (completeWith WRONG_VC) none sampleIdentity none)
        sampleClient sampleContext "s1").err = ErrTimeout :=
  ⟨(C14_FetchSession_mapper_arguments
      (answering (completeWith OK) none sampleIdentity (some contextCanceled))
      sampleClient sampleContext "s1").2.2 mapperChangedAtOK handleMappedResponseError
      (by
        intro code h
        simp only [List.mem_cons, List.mem_singleton, List.not_mem_nil, or_false] at h
        rcases h with h | h | h | h | h | h | h | h <;> subst h <;> rfl),
    (by
      have h1 : mapperChangedAtOK OK = ErrTimeout := rfl
      have h2 : handleMappedResponseError OK = some (ErrorValue.errorString "OK") := rfl
      rw [h1, h2]
      simp [ErrTimeout]),
    rfl, rfl⟩

/-! ## What FetchSession reads of the response -/

/-- Claim C15: two calls whose transports succeed with responses of the same
state, a state other than COMPLETE, return the same result, however the
responses differ in endResult and certificate and whatever the two extractors
would answer. -/
theorem C15_FetchSession_ignores_result_and_cert (w1 w2 : Collaborators) (c : client)
    (ctx : Context) (sessionId : String) (r1 r2 : Response)
    (h1 : w1.FetchAuthenticationSession ctx c.config sessionId = (r1, none))
    (h2 : w2.FetchAuthenticationSession ctx c.config sessionId = (r2, none))
    (hs : r1.State = r2.State) (hc : r1.State ≠ Complete) :
    FetchSession w1 c ctx sessionId = FetchSession w2 c ctx sessionId := by
  have hc2 : r2.State ≠ Complete := by rw [← hs]; exact hc
  unfold FetchSession
  by_cases hr : r1.State = Running
  · have hr2 : r2.State = Running := by rw [← hs]; exact hr
    simp [h1, h2, hr, hr2]
  · have hr2 : ¬ r2.State = Running := by rw [← hs]; exact hr
    simp [h1, h2, hr, hr2, hc, hc2]

/-- Claim C15, evaluated on the state "PENDING": one response says OK and has
a certificate the extractor accepts, the other says TIMEOUT, has no
certificate and comes with an extractor that fails. -/
theorem C15_FetchSession_ignores_result_and_cert_witness :
    FetchSession (answering (inState "PENDING") none sampleIdentity none)
        sampleClient sampleContext "s1" =
      FetchSession
        (answering { State := "PENDING", Result := { EndResult := TIMEOUT }, Cert := { Value := [] } }
          none sampleIdentity (some contextCanceled))
        sampleClient sampleContext "s1" :=
  C15_FetchSession_ignores_result_and_cert
    (answering (inState "PENDING") none sampleIdentity none)
    (answering { State := "PENDING", Result := { EndResult := TIMEOUT }, Cert := { Value := [] } }
      none sampleIdentity (some contextCanceled))
    sampleClient sampleContext "s1" (inState "PENDING")
    { State := "PENDING", Result := { EndResult := TIMEOUT }, Cert := { Value := [] } }
    rfl rfl rfl (by decide)

/-! ## The transport-error mapper applied twice -/

/-- Claim C16: handleMappedError is idempotent, and each of the three public
errors it can return is a fixed point of it. -/
theorem C16_handleMappedError_idempotent (err : error) :
    handleMappedError (handleMappedError err) = handleMappedError err ∧
    handleMappedError ErrAuthenticationIsRunning = ErrAuthenticationIsRunning ∧
    handleMappedError ErrSmartIdNoSuitableAccount = ErrSmartIdNoSuitableAccount ∧
    handleMappedError ErrSmartIdMaintenance = ErrSmartIdMaintenance := by
  have f1 : handleMappedError ErrAuthenticationIsRunning = ErrAuthenticationIsRunning := rfl
  have f2 : handleMappedError ErrSmartIdNoSuitableAccount = ErrSmartIdNoSuitableAccount := rfl
  have f3 : handleMappedError ErrSmartIdMaintenance = ErrSmartIdMaintenance := rfl
  refine ⟨?_, f1, f2, f3⟩
  by_cases h1 : errorsIs err errors.ErrAuthenticationIsRunning = true
  · have e1 : handleMappedError err = ErrAuthenticationIsRunning := by
      unfold handleMappedError; simp [h1]
    rw [e1, f1]
  · by_cases h2 : errorsIs err errors.ErrSmartIdNoSuitableAccount = true
    · have e2 : handleMappedError err = ErrSmartIdNoSuitableAccount := by
        unfold handleMappedError; simp [h1, h2]
      rw [e2, f2]
    · by_cases h3 : errorsIs err errors.ErrSmartIdMaintenance = true
      · have e3 : handleMappedError err = ErrSmartIdMaintenance := by
          unfold handleMappedError; simp [h1, h2, h3]
        rw [e3, f3]
      · have e4 : handleMappedError err = err := by
          unfold handleMappedError; simp [h1, h2, h3]
        rw [e4, e4]

/-! ## Two calls of FetchSession -/

/-- Claim C17: the Person and the error FetchSession returns are determined by
what the transport answers and what the extractor answers on the certificate
of that answer, whatever the client, context and session id are. When the
transport reports RUNNING during a first and during a second call for the same
session id, both calls return ErrAuthenticationIsRunning, the receiver is the
same after each call, and the second call hands the same configuration to the
transport as the first. -/
theorem C17_FetchSession_stateless (w1 w2 : Collaborators) (c c2 : client)
    (ctx ctx2 : Context) (sessionId sessionId2 : String) :
    (w1.FetchAuthenticationSession ctx c.config sessionId =
        w2.FetchAuthenticationSession ctx2 c2.config sessionId2 →
      w1.Extract (w1.FetchAuthenticationSession ctx c.config sessionId).1.Cert.Value =
        w2.Extract (w1.FetchAuthenticationSession ctx c.config sessionId).1.Cert.Value →
      (FetchSession w1 c ctx sessionId).value = (FetchSession w2 c2 ctx2 sessionId2).value ∧
      (FetchSession w1 c ctx sessionId).err = (FetchSession w2 c2 ctx2 sessionId2).err) ∧
    (∀ r1 r2 : Response,
      w1.FetchAuthenticationSession ctx c.config sessionId = (r1, none) → r1.State = Running →
      w2.FetchAuthenticationSession ctx c.config sessionId = (r2, none) → r2.State = Running →
      (FetchSession.step w1 ctx sessionId c).1 =
        { value := none, err := ErrAuthenticationIsRunning,
          calls := [Call.FetchAuthenticationSession ctx c.config sessionId] } ∧
      (FetchSession.step w1 ctx sessionId c).2 = c ∧
      (FetchSession.step w2 ctx sessionId (FetchSession.step w1 ctx sessionId c).2).1 =
        { value := none, err := ErrAuthenticationIsRunning,
          calls := [Call.FetchAuthenticationSession ctx c.config sessionId] } ∧
      (FetchSession.step w2 ctx sessionId (FetchSession.step w1 ctx sessionId c).2).2 = c) := by
  refine ⟨?_, ?_⟩
  · intro ht hx
    unfold FetchSession
    rw [← ht]
    generalize w1.FetchAuthenticationSession ctx c.config sessionId = t at hx ⊢
    obtain ⟨response, err⟩ := t
    simp only at hx ⊢
    rw [← hx]
    generalize w1.Extract response.Cert.Value = x
    obtain ⟨identity, xerr⟩ := x
    cases err with
    | some e => simp
    | none =>
      by_cases hr : response.State = Running
      · simp [hr]
      · by_cases hc : response.State = Complete
        · by_cases hok : response.Result.EndResult = OK
          · cases xerr with
            | some x => simp [hc, hok, Complete_ne_Running]
            | none => simp [hc, hok, Complete_ne_Running]
          · simp only [Option.isSome_none, Bool.false_eq_true, if_false, hc, hok, if_true,
              Complete_ne_Running]
            split_ifs <;> simp
        · simp [hr, hc]
  · intro r1 r2 h1 hs1 h2 hs2
    unfold FetchSession.step FetchSession
    simp [h1, hs1, h2, hs2]

/-- Claim C17, evaluated on two calls for the session "s1" during which the
transport answers RUNNING, with different endResults in the two responses. -/
theorem C17_FetchSession_stateless_witness :
    (FetchSession.step (answering (inState Running) none sampleIdentity none)
        sampleContext "s1" sampleClient).1 =
      { value := none, err := ErrAuthenticationIsRunning,
        calls := [Call.FetchAuthenticationSession sampleContext sampleConfig "s1"] } ∧
    (FetchSession.step
        (answering { State := Running, Result := { EndResult := "" }, Cert := { Value := [] } }
          none sampleIdentity none)
        sampleContext "s1"
        (FetchSession.step (answering (inState Running) none sampleIdentity none)
          sampleContext "s1" sampleClient).2).1 =
      { value := none, err := ErrAuthenticationIsRunning,
        calls := [Call.FetchAuthenticationSession sampleContext sampleConfig "s1"] } :=
  ⟨((C17_FetchSession_stateless (answering (inState Running) none sampleIdentity none)
        (answering { State := Running, Result := { EndResult := "" }, Cert := { Value := [] } }
          none sampleIdentity none)
        sampleClient sampleClient sampleContext sampleContext "s1" "s1").2
      (inState Running)
      { State := Running, Result := { EndResult := "" }, Cert := { Value := [] } }
      rfl rfl rfl rfl).1,
    ((C17_FetchSession_stateless (answering (inState Running) none sampleIdentity none)
        (answering { State := Running, Result := { EndResult := "" }, Cert := { Value := [] } }
          none sampleIdentity none)
        sampleClient sampleClient sampleContext sampleContext "s1" "s1").2
      (inState Running)
      { State := Running, Result := { EndResult := "" }, Cert := { Value := [] } }
      rfl rfl rfl rfl).2.2.1⟩

end smartid
